import Mathlib

/-!
Verification of the gosnmp repository: a shallow embedding of the varbind
BER codec, the agent dispatch loop, the stats tracker, the request tracker
and the supervisor shutdown protocol, with theorems settling the frozen
claims about the natural-language specification.

Bytes are modelled as `Nat` values below 256; Go slices become `List`;
Go `nil` pointers and `nil` slices become `Option`/`[]`; fallible code
returns `Option`.
-/

namespace GoSnmp

/-! ## Object identifiers (src/varbind.go, src/unnamed/part_001) -/

abbrev ObjectIdentifier := List Nat

/-- Modelled from the spec: the `Compare` method of `ObjectIdentifier`
is defined outside src; the spec (section 3) gives a total order by
lexicographic comparison of the sub-identifier sequences. -/
def oidCompare : ObjectIdentifier → ObjectIdentifier → Ordering
  | [], [] => .eq
  | [], _ :: _ => .lt
  | _ :: _, [] => .gt
  | a :: as, b :: bs => if a < b then .lt else if b < a then .gt else oidCompare as bs

/-- Modelled from the spec: `MatchLength(a,b)` is defined outside src; the
spec (section 3) says it returns the length of the common prefix of the
two object identifiers. -/
def MatchLength : ObjectIdentifier → ObjectIdentifier → Nat
  | a :: as, b :: bs => if a = b then 1 + MatchLength as bs else 0
  | _, _ => 0

/-! ## Varbind variants (src/varbind.go)

The Go `Varbind` interface with its struct implementations becomes a sum
type over the variant structs.  `new(T)` in Go zero-initializes every
field; each `New*Varbind` constructor below assigns only the `oid` field,
exactly as the source does, so the value field keeps the Go zero value
(0 for int32, `none` for a pointer, `[]` for a slice). -/

structure BitString where
  numBits : Nat
  bytes : List Nat
deriving DecidableEq, Repr

structure IntegerVarbind where
  oid : ObjectIdentifier
  val : Int
deriving DecidableEq, Repr

structure BitStringVarbind where
  oid : ObjectIdentifier
  val : Option BitString
deriving DecidableEq, Repr

structure OctetStringVarbind where
  oid : ObjectIdentifier
  val : List Nat
deriving DecidableEq, Repr

structure NullVarbind where
  oid : ObjectIdentifier
deriving DecidableEq, Repr

structure ObjectIdentifierVarbind where
  oid : ObjectIdentifier
  val : ObjectIdentifier
deriving DecidableEq, Repr

structure IPv4AddressVarbind where
  oid : ObjectIdentifier
  val : List Nat
deriving DecidableEq, Repr

/-- Modelled from the spec: `NoSuchObjectVarbind` is defined outside src;
the spec (sections 3 and 6) describes the v2 exception markers as varbinds
carrying only an OID with an implicit NULL value. -/
structure NoSuchObjectVarbind where
  oid : ObjectIdentifier
deriving DecidableEq, Repr

inductive Varbind
  | integer (vb : IntegerVarbind)
  | bitString (vb : BitStringVarbind)
  | octetString (vb : OctetStringVarbind)
  | null (vb : NullVarbind)
  | objectIdentifier (vb : ObjectIdentifierVarbind)
  | ipv4Address (vb : IPv4AddressVarbind)
  | noSuchObject (vb : NoSuchObjectVarbind)
deriving DecidableEq, Repr

def Varbind.getOid : Varbind → ObjectIdentifier
  | .integer vb => vb.oid
  | .bitString vb => vb.oid
  | .octetString vb => vb.oid
  | .null vb => vb.oid
  | .objectIdentifier vb => vb.oid
  | .ipv4Address vb => vb.oid
  | .noSuchObject vb => vb.oid

/-- src/varbind.go line 47: `vb := new(IntegerVarbind); vb.oid = oid; return vb`.
The `val` argument is never stored, so `val` keeps the zero value 0. -/
def NewIntegerVarbind (oid : ObjectIdentifier) (_val : Int) : IntegerVarbind :=
  { oid := oid, val := 0 }

/-- src/varbind.go line 69: only `oid` is assigned; `val` keeps the nil pointer. -/
def NewBitStringVarbind (oid : ObjectIdentifier) (_val : Option BitString) : BitStringVarbind :=
  { oid := oid, val := none }

/-- src/varbind.go line 89: only `oid` is assigned; `val` keeps the nil slice. -/
def NewOctetStringVarbind (oid : ObjectIdentifier) (_val : List Nat) : OctetStringVarbind :=
  { oid := oid, val := [] }

/-- src/varbind.go line 111. -/
def NewNullVarbind (oid : ObjectIdentifier) : NullVarbind :=
  { oid := oid }

/-- src/varbind.go line 133: only `oid` is assigned; `val` keeps the nil slice. -/
def NewObjectIdentifierVarbind (oid : ObjectIdentifier) (_val : ObjectIdentifier) :
    ObjectIdentifierVarbind :=
  { oid := oid, val := [] }

/-- src/varbind.go line 153: only `oid` is assigned; `val` keeps the nil `net.IP`. -/
def NewIPv4AddressVarbind (oid : ObjectIdentifier) (_val : List Nat) : IPv4AddressVarbind :=
  { oid := oid, val := [] }

/-- Modelled from the spec: the exception-marker constructor is defined
outside src; it carries the requested OID and no value. -/
def NewNoSuchObjectVarbind (oid : ObjectIdentifier) : NoSuchObjectVarbind :=
  { oid := oid }

/-! ## BER codec primitives

The `berEncoder`/`berDecoder` implementations live outside src (imported
package `asn`); everything in this section is modelled from the spec,
section 4.1: definite lengths (short form below 128, long form
`0x80+n` followed by `n` big-endian bytes), minimal two's-complement
integers, OID first-byte packing `a*40+b` with base-128 continuation
bytes for the remaining sub-identifiers. -/

def SEQUENCE : Nat := 0x30
def INTEGER : Nat := 0x02
def BIT_STRING : Nat := 0x03
def OCTET_STRING : Nat := 0x04
def NULL : Nat := 0x05
def OBJECT_IDENTIFIER : Nat := 0x06
def IP_ADDRESS : Nat := 0x40

/-- Big-endian base-256 digits, structurally recursive on a fuel bound. -/
def beBytesAux : Nat → Nat → List Nat
  | 0, _ => []
  | fuel + 1, n => if n = 0 then [] else beBytesAux fuel (n / 256) ++ [n % 256]

/-- Big-endian base-256 digits of a positive number (empty for 0). -/
def beBytes (n : Nat) : List Nat :=
  beBytesAux n n

/-- Modelled from the spec: definite length encoding. -/
def berLength (n : Nat) : List Nat :=
  if n < 128 then [n] else
    let bs := beBytes n
    (0x80 + bs.length) :: bs

/-- TLV assembly: tag, definite length, content. -/
def tlv (tag : Nat) (content : List Nat) : List Nat :=
  tag :: berLength content.length ++ content

/-- Byte length of the minimal two's-complement encoding of `i`
(1 to 8 bytes for the 64-bit range, 9 as an unreachable fallback). -/
def intEncLen (i : Int) : Nat :=
  (((List.range 8).map (· + 1)).find? fun k =>
    decide (-(2 ^ (8 * k - 1) : Int) ≤ i ∧ i < (2 ^ (8 * k - 1) : Int))).getD 9

/-- `k` big-endian base-256 digits of `n` (most significant first). -/
def fixedBE (n : Nat) : Nat → List Nat
  | 0 => []
  | k + 1 => fixedBE (n / 256) k ++ [n % 256]

/-- Modelled from the spec: minimal two's-complement content bytes. -/
def encodeIntegerContent (i : Int) : List Nat :=
  let k := intEncLen i
  fixedBE (i % ((2 : Int) ^ (8 * k))).toNat k

/-- Modelled from the spec: two's-complement decoding of content bytes. -/
def decodeIntegerContent (bytes : List Nat) : Int :=
  let n : Nat := bytes.foldl (fun acc b => acc * 256 + b) 0
  match bytes with
  | [] => 0
  | b :: _ => if 128 ≤ b then (n : Int) - (2 : Int) ^ (8 * bytes.length) else (n : Int)

/-- Continuation-bit bytes, structurally recursive on a fuel bound. -/
def base128CoreAux : Nat → Nat → List Nat
  | 0, _ => []
  | fuel + 1, n => if n = 0 then [] else base128CoreAux fuel (n / 128) ++ [128 + n % 128]

/-- Continuation-bit bytes for the leading base-128 digits of a sub-identifier. -/
def base128Core (n : Nat) : List Nat :=
  base128CoreAux n n

/-- One OID sub-identifier: base-128, only the final byte has the MSB clear. -/
def encodeSubId (n : Nat) : List Nat :=
  base128Core (n / 128) ++ [n % 128]

/-- Modelled from the spec: OID content bytes, first two sub-identifiers
packed as `a*40+b`. -/
def encodeOidContent : ObjectIdentifier → Option (List Nat)
  | a :: b :: rest => some (encodeSubId (a * 40 + b) ++ rest.flatMap encodeSubId)
  | _ => none

/-- Full OID TLV; fails when the OID has fewer than two sub-identifiers. -/
def encodeObjectIdentifier (oid : ObjectIdentifier) : Option (List Nat) :=
  (encodeOidContent oid).map (tlv OBJECT_IDENTIFIER)

/-- Accumulate base-128 sub-identifiers; fails on an unterminated
continuation sequence. -/
def decodeSubIds : List Nat → Nat → Bool → Option (List Nat)
  | [], _, pending => if pending then none else some []
  | b :: rest, acc, _ =>
      if 128 ≤ b then decodeSubIds rest (acc * 128 + (b - 128)) true
      else (decodeSubIds rest 0 false).map fun ids => (acc * 128 + b) :: ids

/-- Modelled from the spec: OID content decoding; the first sub-identifier
byte `v` splits as `(0,v)` below 40, `(1,v-40)` below 80, else `(2,v-80)`. -/
def decodeOidContent (bytes : List Nat) : Option ObjectIdentifier := do
  let ids ← decodeSubIds bytes 0 false
  match ids with
  | [] => none
  | v :: rest =>
      if v < 40 then some (0 :: v :: rest)
      else if v < 80 then some (1 :: (v - 40) :: rest)
      else some (2 :: (v - 80) :: rest)

/-- Modelled from the spec: header decoding (tag byte then definite
length); fails on truncation and on the indefinite form `0x80`. -/
def decodeHeader (bytes : List Nat) : Option (Nat × Nat × List Nat) :=
  match bytes with
  | tag :: l :: rest =>
      if l < 128 then some (tag, l, rest)
      else
        let k := l - 128
        if k = 0 ∨ rest.length < k then none
        else some (tag, (rest.take k).foldl (fun acc b => acc * 256 + b) 0, rest.drop k)
  | _ => none

/-- Decoded value payload produced by the decoder dispatch. -/
inductive DecodedValue
  | int (i : Int)
  | bits (b : BitString)
  | str (s : List Nat)
  | null
  | oid (o : ObjectIdentifier)
  | ip (a : List Nat)
deriving DecidableEq, Repr

/-- Modelled from the spec: `decoder.decodeValue` reads one TLV and
dispatches on the tag; unknown tags and malformed contents fail. -/
def decodeValue (bytes : List Nat) : Option (DecodedValue × List Nat) := do
  let (tag, len, rest) ← decodeHeader bytes
  if rest.length < len then none else
  let content := rest.take len
  let remaining := rest.drop len
  let v ←
    if tag = INTEGER then
      if len = 0 ∨ 8 < len then none else some (DecodedValue.int (decodeIntegerContent content))
    else if tag = BIT_STRING then
      match content with
      | pad :: bs => some (DecodedValue.bits { numBits := bs.length * 8 - pad, bytes := bs })
      | [] => none
    else if tag = OCTET_STRING then some (DecodedValue.str content)
    else if tag = NULL then
      if len = 0 then some DecodedValue.null else none
    else if tag = OBJECT_IDENTIFIER then
      (decodeOidContent content).map DecodedValue.oid
    else if tag = IP_ADDRESS then
      if len = 4 then some (DecodedValue.ip content) else none
    else none
  some (v, remaining)

/-- Object identifier TLV decoding used by `decodeVarbind`
(`decodeObjectIdentifierWithHeader` lives outside src). -/
def decodeObjectIdentifierWithHeader (bytes : List Nat) :
    Option (ObjectIdentifier × List Nat) := do
  let (tag, len, rest) ← decodeHeader bytes
  if tag ≠ OBJECT_IDENTIFIER then none else
  if rest.length < len then none else
  let oid ← decodeOidContent (rest.take len)
  some (oid, rest.drop len)

/-! ## Varbind encode and decode (src/varbind.go) -/

/-- The `encodeValue` methods of the varbind structs (src/varbind.go);
dispatch on the interface becomes a match on the sum type.  The bit
string, ipv4 and exception encoders live outside src and are modelled
from the spec. -/
def Varbind.encodeValue : Varbind → Option (List Nat)
  | .integer vb => some (tlv INTEGER (encodeIntegerContent vb.val))
  | .bitString vb =>
      match vb.val with
      | none => none
      | some bs => some (tlv BIT_STRING ((bs.bytes.length * 8 - bs.numBits) :: bs.bytes))
  | .octetString vb => some (tlv OCTET_STRING vb.val)
  | .null _ => some (tlv NULL [])
  | .objectIdentifier vb => (encodeOidContent vb.val).map (tlv OBJECT_IDENTIFIER)
  | .ipv4Address vb => if vb.val.length = 4 then some (tlv IP_ADDRESS vb.val) else none
  | .noSuchObject _ => some (tlv 0x80 [])

/-- src/varbind.go lines 16-28: a varbind is a SEQUENCE holding the OID
TLV followed by the value TLV. -/
def encodeVarbind (vb : Varbind) : Option (List Nat) := do
  let oidBytes ← encodeObjectIdentifier vb.getOid
  let valBytes ← vb.encodeValue
  some (tlv SEQUENCE (oidBytes ++ valBytes))

/-- src/varbind.go lines 246-295: decode the SEQUENCE header, the OID and
the value, then build the varbind through the `New*Varbind` constructors
(which discard the decoded value), and check the consumed byte count
against the header length. -/
def decodeVarbind (input : List Nat) : Option (Varbind × List Nat) := do
  let (headerType, varbindLength, rest) ← decodeHeader input
  if headerType ≠ SEQUENCE then none else
  let startDecoderLen := rest.length
  let (oid, rest2) ← decodeObjectIdentifierWithHeader rest
  let (value, rest3) ← decodeValue rest2
  let varbind : Varbind :=
    match value with
    | .int v => .integer (NewIntegerVarbind oid v)
    | .bits v => .bitString (NewBitStringVarbind oid (some v))
    | .str v => .octetString (NewOctetStringVarbind oid v)
    | .null => .null (NewNullVarbind oid)
    | .oid v => .objectIdentifier (NewObjectIdentifierVarbind oid v)
    | .ip v => .ipv4Address (NewIPv4AddressVarbind oid v)
  if startDecoderLen - rest3.length ≠ varbindLength then none
  else some (varbind, rest3)

/-! ## Claims C1 and C2 -/

/-- Claim C2 (confirmed): every value-carrying varbind constructor
(`NewIntegerVarbind`, `NewBitStringVarbind`, `NewOctetStringVarbind`,
`NewObjectIdentifierVarbind`, `NewIPv4AddressVarbind`) stores the given
OID but discards its value argument, leaving the value field at the Go
zero value of its type. -/
theorem constructors_discard_value (o : ObjectIdentifier) (i : Int)
    (b : Option BitString) (s : List Nat) (v : ObjectIdentifier) (ip : List Nat) :
    NewIntegerVarbind o i = { oid := o, val := 0 } ∧
    NewBitStringVarbind o b = { oid := o, val := none } ∧
    NewOctetStringVarbind o s = { oid := o, val := [] } ∧
    NewObjectIdentifierVarbind o v = { oid := o, val := [] } ∧
    NewIPv4AddressVarbind o ip = { oid := o, val := [] } :=
  ⟨rfl, rfl, rfl, rfl, rfl⟩

/-- Claim C1 (code_bug): the varbind round-trip fails.  Encoding the
integer varbind with OID 1.3 and value 1 yields the correct BER bytes,
but decoding those bytes returns the varbind with value 0, because
`decodeVarbind` builds its result through the constructors that discard
the decoded value. -/
theorem varbind_roundtrip_fails :
    encodeVarbind (Varbind.integer { oid := [1, 3], val := 1 }) =
      some [0x30, 6, 0x06, 1, 43, 0x02, 1, 1] ∧
    decodeVarbind [0x30, 6, 0x06, 1, 43, 0x02, 1, 1] =
      some (Varbind.integer { oid := [1, 3], val := 0 }, []) ∧
    Varbind.integer { oid := [1, 3], val := 0 } ≠
      Varbind.integer { oid := [1, 3], val := 1 } := by
  refine ⟨by decide, by decide, by decide⟩

/-! ## Agent dispatch (src/unnamed/part_001) -/

inductive PduType
  | getRequest
  | getNextRequest
  | getBulkRequest
  | setRequest
  | response
  | v1Trap
  | v2Trap
deriving DecidableEq, Repr

/-- Spec section 6: error-status code 13 is resourceUnavailable. -/
def SnmpRequestErrorType_RESOURCE_UNAVAILABLE : Nat := 13

def oidLeb (a b : ObjectIdentifier) : Bool :=
  match oidCompare a b with
  | .gt => false
  | _ => true

def oidLtb (a b : ObjectIdentifier) : Bool :=
  match oidCompare a b with
  | .lt => true
  | _ => false

/-- An OID handler: `Get`/`Set` return `none` on error (the Go pair
`(Varbind, error)` with non-nil error). -/
structure OidHandler where
  Get : ObjectIdentifier → Option Nat → Option Varbind
  Set : Varbind → Option Nat → Option Varbind

/-- src/unnamed/part_001 lines 102-106. -/
structure OidTreeNode where
  oid : ObjectIdentifier
  isMulti : Bool
  handler : OidHandler

/-- Modelled from the spec: the llrb tree package is external; its `Ceil`
returns the least stored OID that is greater than or equal to the query
(spec sections 3 and 9).  The ordered container is modelled as a list of
nodes. -/
def oidTreeCeil (tree : List OidTreeNode) (query : ObjectIdentifier) : Option OidTreeNode :=
  tree.foldl
    (fun best node =>
      if oidLeb query node.oid then
        match best with
        | none => some node
        | some b => if oidLtb node.oid b.oid then some node else best
      else best)
    none

/-- src/unnamed/part_001 lines 70-86: ceiling lookup, then reject the
node when its OID is not a common prefix of the requested OID. -/
def lookupHandler (tree : List OidTreeNode) (oid : ObjectIdentifier) : Option OidTreeNode :=
  match oidTreeCeil tree oid with
  | none => none
  | some node =>
      if MatchLength node.oid oid ≠ node.oid.length then none else some node

structure CommunityRequest where
  pduType : PduType
  requestId : Nat
  varbinds : List Varbind

structure CommunityResponse where
  requestId : Nat
  errorVal : Nat
  errorIdx : Nat
  varbinds : List Varbind
deriving DecidableEq, Repr

/-- Modelled from the spec: `createResponse` lives outside src; a
response PDU echoes the request id and starts with no error and no
varbinds. -/
def createResponse (req : CommunityRequest) : CommunityResponse :=
  { requestId := req.requestId, errorVal := 0, errorIdx := 0, varbinds := [] }

inductive ProviderEvent
  | start
  | commit
  | abort
deriving DecidableEq, Repr

/-- The transaction provider is user code; only the result of `StartTxn`
matters to the agent (`nil` is `none`). -/
structure TransactionProvider where
  startTxnResult : Option Nat

structure Agent where
  oidTree : List OidTreeNode
  txnProvider : TransactionProvider

/-- Result of one iteration of the varbind loop: the varbind appended to
the response (if any) and whether a handler was invoked. -/
structure VarbindOutcome where
  appended : Option Varbind
  handlerInvoked : Bool
deriving DecidableEq, Repr

/-- The loop body of `processcommunityRequest` (src/unnamed/part_001
lines 44-66): lookup, or append a NoSuchObject exception; on GET/SET
invoke the handler and skip the varbind when it errors; other PDU types
fall through the switch appending nothing. -/
def processVarbindStep (agent : Agent) (pduType : PduType) (txn : Option Nat)
    (requestVb : Varbind) : VarbindOutcome :=
  match lookupHandler agent.oidTree requestVb.getOid with
  | none =>
      { appended := some (.noSuchObject (NewNoSuchObjectVarbind requestVb.getOid)),
        handlerInvoked := false }
  | some node =>
      match pduType with
      | .getRequest =>
          match node.handler.Get requestVb.getOid txn with
          | none => { appended := none, handlerInvoked := true }
          | some responseVb => { appended := some responseVb, handlerInvoked := true }
      | .setRequest =>
          match node.handler.Set requestVb txn with
          | none => { appended := none, handlerInvoked := true }
          | some responseVb => { appended := some responseVb, handlerInvoked := true }
      | _ => { appended := none, handlerInvoked := false }

/-- Everything `processcommunityRequest` produces: the response, the
calls made on the transaction provider, and what is queued outbound. -/
structure AgentOutput where
  resp : CommunityResponse
  providerEvents : List ProviderEvent
  outboundQueue : List CommunityResponse

/-- src/unnamed/part_001 lines 37-68: create the response, start a
provider transaction (flagging RESOURCE_UNAVAILABLE when it is nil),
run the varbind loop, and hand the response to `sendResponse`.  The
source never calls `CommitTxn` or `AbortTxn`, so the event trace is
exactly `[start]`. -/
def processcommunityRequest (agent : Agent) (req : CommunityRequest) : AgentOutput :=
  let resp0 := createResponse req
  let txn := agent.txnProvider.startTxnResult
  let resp1 :=
    if txn.isNone then
      { resp0 with errorVal := SnmpRequestErrorType_RESOURCE_UNAVAILABLE, errorIdx := 1 }
    else resp0
  let finalVbs := req.varbinds.foldl
    (fun acc requestVb =>
      acc ++ ((processVarbindStep agent req.pduType txn requestVb).appended).toList)
    []
  let resp := { resp1 with varbinds := finalVbs }
  { resp := resp, providerEvents := [ProviderEvent.start], outboundQueue := [resp] }

/-- Appending through a left fold is a monadic bind on lists. -/
theorem foldl_append_bind {α β : Type} (f : α → List β) (l : List α) :
    ∀ acc : List β, l.foldl (fun a v => a ++ f v) acc = acc ++ l.flatMap f := by
  induction l with
  | nil => intro acc; simp
  | cons x xs ih => intro acc; simp [ih, List.append_assoc]

/-- The response varbind list is the concatenation of the per-varbind
outcomes of the loop body. -/
theorem resp_varbinds_eq (agent : Agent) (req : CommunityRequest) :
    (processcommunityRequest agent req).resp.varbinds =
      req.varbinds.flatMap fun vb =>
        ((processVarbindStep agent req.pduType agent.txnProvider.startTxnResult vb).appended).toList := by
  simp [processcommunityRequest, foldl_append_bind]

/-- Claim C3 (code_bug): the agent starts a provider transaction and
queues the response, but never calls `CommitTxn` or `AbortTxn` on any
input: the provider event trace of every request is exactly `[start]`. -/
theorem agent_never_commits (agent : Agent) (req : CommunityRequest) :
    (processcommunityRequest agent req).providerEvents = [ProviderEvent.start] ∧
    (processcommunityRequest agent req).providerEvents.count ProviderEvent.commit = 0 ∧
    (processcommunityRequest agent req).providerEvents.count ProviderEvent.abort = 0 ∧
    (processcommunityRequest agent req).outboundQueue =
      [(processcommunityRequest agent req).resp] :=
  ⟨rfl, rfl, rfl, rfl⟩

/-- Claim C7 (confirmed): whenever the ceiling lookup of a request
varbind finds nothing, or finds a node whose OID is not a prefix of the
requested OID, the loop appends a NoSuchObject exception varbind carrying
the requested OID, invokes no handler, and the exception appears in the
response of the whole request. -/
theorem noSuchObject_on_ceiling_mismatch (agent : Agent) (req : CommunityRequest)
    (vb : Varbind) (hmem : vb ∈ req.varbinds)
    (h : ∀ node, oidTreeCeil agent.oidTree vb.getOid = some node →
      MatchLength node.oid vb.getOid ≠ node.oid.length) :
    processVarbindStep agent req.pduType agent.txnProvider.startTxnResult vb =
      { appended := some (.noSuchObject { oid := vb.getOid }), handlerInvoked := false } ∧
    Varbind.noSuchObject { oid := vb.getOid } ∈
      (processcommunityRequest agent req).resp.varbinds := by
  have hlk : lookupHandler agent.oidTree vb.getOid = none := by
    unfold lookupHandler
    cases hc : oidTreeCeil agent.oidTree vb.getOid with
    | none => rfl
    | some node => simp [h node hc]
  have hstep : processVarbindStep agent req.pduType agent.txnProvider.startTxnResult vb =
      { appended := some (.noSuchObject { oid := vb.getOid }), handlerInvoked := false } := by
    simp [processVarbindStep, hlk, NewNoSuchObjectVarbind]
  refine ⟨hstep, ?_⟩
  rw [resp_varbinds_eq]
  exact List.mem_flatMap.mpr ⟨vb, hmem, by simp [hstep]⟩

/-- Witness for C7: an agent with an empty OID tree (no handlers bound)
answers a Get for OID 1.3 with a NoSuchObject exception varbind. -/
theorem noSuchObject_on_ceiling_mismatch_witness :
    ((Varbind.null { oid := [1, 3] }) ∈
        (CommunityRequest.mk PduType.getRequest 5 [Varbind.null { oid := [1, 3] }]).varbinds ∧
      (∀ node, oidTreeCeil ([] : List OidTreeNode) (Varbind.null { oid := [1, 3] }).getOid = some node →
        MatchLength node.oid (Varbind.null { oid := [1, 3] }).getOid ≠ node.oid.length)) ∧
    (processVarbindStep (Agent.mk [] (TransactionProvider.mk (some 0)))
        PduType.getRequest (some 0) (Varbind.null { oid := [1, 3] }) =
      { appended := some (.noSuchObject { oid := [1, 3] }), handlerInvoked := false } ∧
    Varbind.noSuchObject { oid := [1, 3] } ∈
      (processcommunityRequest (Agent.mk [] (TransactionProvider.mk (some 0)))
        (CommunityRequest.mk PduType.getRequest 5 [Varbind.null { oid := [1, 3] }])).resp.varbinds) :=
  ⟨⟨by simp, by intro node hnode; simp [oidTreeCeil] at hnode⟩,
    noSuchObject_on_ceiling_mismatch (Agent.mk [] (TransactionProvider.mk (some 0)))
      (CommunityRequest.mk PduType.getRequest 5 [Varbind.null { oid := [1, 3] }])
      (Varbind.null { oid := [1, 3] }) (by simp)
      (by intro node hnode; simp [oidTreeCeil] at hnode)⟩

/-- Claim C8 (confirmed): a varbind whose handler Get or Set call errors
is omitted from the response, every other varbind of the request is
still processed exactly as it would be without it, and the response is
still queued: a handler error never fails the whole response. -/
theorem handler_error_omits_varbind (agent : Agent) (pt : PduType) (rid : Nat)
    (vbs1 vbs2 : List Varbind) (vb : Varbind) (node : OidTreeNode)
    (hfound : lookupHandler agent.oidTree vb.getOid = some node)
    (herr : (pt = PduType.getRequest ∧
        node.handler.Get vb.getOid agent.txnProvider.startTxnResult = none) ∨
      (pt = PduType.setRequest ∧
        node.handler.Set vb agent.txnProvider.startTxnResult = none)) :
    (processcommunityRequest agent ⟨pt, rid, vbs1 ++ vb :: vbs2⟩).resp.varbinds =
      (processcommunityRequest agent ⟨pt, rid, vbs1⟩).resp.varbinds ++
        (processcommunityRequest agent ⟨pt, rid, vbs2⟩).resp.varbinds ∧
    (processcommunityRequest agent ⟨pt, rid, vbs1 ++ vb :: vbs2⟩).outboundQueue =
      [(processcommunityRequest agent ⟨pt, rid, vbs1 ++ vb :: vbs2⟩).resp] := by
  have hstep : (processVarbindStep agent pt agent.txnProvider.startTxnResult vb).appended
      = none := by
    rcases herr with ⟨hpt, he⟩ | ⟨hpt, he⟩ <;> subst hpt <;>
      simp [processVarbindStep, hfound, he]
  refine ⟨?_, rfl⟩
  rw [resp_varbinds_eq, resp_varbinds_eq, resp_varbinds_eq]
  simp [hstep]

/-- Witness for C8: a handler bound at 1.3.1 which errors on Get causes
that varbind to vanish from the response while the second varbind of the
request is still answered. -/
theorem handler_error_omits_varbind_witness :
    (lookupHandler [OidTreeNode.mk [1, 3, 1] false
          (OidHandler.mk (fun _ _ => none) (fun _ _ => none))]
        (Varbind.null { oid := [1, 3, 1] }).getOid =
      some (OidTreeNode.mk [1, 3, 1] false
        (OidHandler.mk (fun _ _ => none) (fun _ _ => none))) ∧
      (OidTreeNode.mk [1, 3, 1] false
        (OidHandler.mk (fun _ _ => none) (fun _ _ => none))).handler.Get
          (Varbind.null { oid := [1, 3, 1] }).getOid (some 0) = none) ∧
    (processcommunityRequest
        (Agent.mk [OidTreeNode.mk [1, 3, 1] false
          (OidHandler.mk (fun _ _ => none) (fun _ _ => none))] (TransactionProvider.mk (some 0)))
        ⟨PduType.getRequest, 7,
          [] ++ Varbind.null { oid := [1, 3, 1] } :: [Varbind.null { oid := [9] }]⟩).resp.varbinds =
      (processcommunityRequest
        (Agent.mk [OidTreeNode.mk [1, 3, 1] false
          (OidHandler.mk (fun _ _ => none) (fun _ _ => none))] (TransactionProvider.mk (some 0)))
        ⟨PduType.getRequest, 7, []⟩).resp.varbinds ++
        (processcommunityRequest
        (Agent.mk [OidTreeNode.mk [1, 3, 1] false
          (OidHandler.mk (fun _ _ => none) (fun _ _ => none))] (TransactionProvider.mk (some 0)))
        ⟨PduType.getRequest, 7, [Varbind.null { oid := [9] }]⟩).resp.varbinds :=
  ⟨⟨rfl, rfl⟩,
    (handler_error_omits_varbind
      (Agent.mk [OidTreeNode.mk [1, 3, 1] false
        (OidHandler.mk (fun _ _ => none) (fun _ _ => none))] (TransactionProvider.mk (some 0)))
      PduType.getRequest 7 [] [Varbind.null { oid := [9] }]
      (Varbind.null { oid := [1, 3, 1] })
      (OidTreeNode.mk [1, 3, 1] false (OidHandler.mk (fun _ _ => none) (fun _ _ => none)))
      rfl (Or.inl ⟨rfl, rfl⟩)).1⟩

/-! ## Stats tracker (src/snmp.go, `trackStats`)

Bins are pointers in Go (`[]*StatsBin`), so a slot is `Option StatsBin`
with `none` for a nil pointer.  Go maps become association lists.  An
out-of-range slice index or a nil-pointer dereference panics the tracker
goroutine; both are modelled by `none`/`false` results. -/

inductive StatType
  | INBOUND_CONNECTION_DEATH
  | INBOUND_CONNECTION_CLOSE
  | OUTBOUND_CONNECTION_DEATH
  | OUTBOUND_CONNECTION_CLOSE
  | INBOUND_MESSAGES_RECEIVED
  | INBOUND_MESSAGES_UNDECODABLE
  | OUTBOUND_MESSAGES_SENT
  | RESPONSES_RELEASED_TO_CLIENT
  | RESPONSES_DROPPED_BY_REQUEST_TRACKER
  | REQUESTS_SENT
  | REQUESTS_FORWARDED_TO_FLOW_CONTROL
  | UNKNOWN_REQUESTS_TIMED_OUT
  | REQUESTS_TIMED_OUT
  | REQUEST_RETRIES_EXHAUSTED
  | GET_REQUESTS_RECEIVED
  | GET_NEXT_REQUESTS_RECEIVED
  | GET_BULK_REQUESTS_RECEIVED
  | SET_REQUESTS_RECEIVED
  | RESPONSES_RECEIVED
  | V1_TRAPS_RECEIVED
  | V2_TRAPS_RECEIVED
  | COMMUNITY_REQUEST_RECEIVED_WITH_NO_REQUEST_PROCESSOR
deriving DecidableEq, Repr

structure StatsBin where
  Stats : List (StatType × Nat)
  NumSeconds : Nat
deriving DecidableEq, Repr

def newStatsBin : StatsBin :=
  { Stats := [], NumSeconds := 0 }

def StatsBin.copy (b : StatsBin) : StatsBin :=
  { Stats := b.Stats, NumSeconds := b.NumSeconds }

/-- Go map read: missing key yields 0. -/
def lookupStat (stats : List (StatType × Nat)) (k : StatType) : Nat :=
  match stats.find? fun p => p.1 = k with
  | some p => p.2
  | none => 0

/-- Bounds-checked slice write: Go panics outside `0..len-1`. -/
def setChecked {α : Type} (l : List α) (i : Nat) (a : α) : Option (List α) :=
  if i < l.length then some (l.set i a) else none

/-- The rollover shift `bins[idx] = bins[idx-1]` running `idx` down to 1,
started from a given first index.  A read or write outside the slice is a
panic, hence `none`. -/
def shiftLoop (bins : List (Option StatsBin)) : Nat → Option (List (Option StatsBin))
  | 0 => some bins
  | i + 1 => do
      let v ← bins[i]?
      let bins2 ← setChecked bins (i + 1) v
      shiftLoop bins2 i

/-- The ticker branch of `trackStats` in the first variant (src/snmp.go
lines 243-251): increment the live bin seconds and, on rollover, shift
starting from `idx = len(bins)`. -/
def tickStatsV1 (bins : List (Option StatsBin)) (nextRollover : Nat) :
    Option (List (Option StatsBin) × Nat) := do
  let b0opt ← bins[0]?
  match b0opt with
  | none => none
  | some b0 =>
      let b1 := { b0 with NumSeconds := b0.NumSeconds + 1 }
      let bins1 ← setChecked bins 0 (some b1)
      if b1.NumSeconds = nextRollover then do
        let shifted ← shiftLoop bins1 bins1.length
        let finalBins ← setChecked shifted 0 (some newStatsBin)
        some (finalBins, 900)
      else some (bins1, nextRollover)

/-- The ticker branch of `trackStats` in the second variant (src/snmp.go
lines 812-820): identical except that the shift starts from
`idx = len(bins) - 1`. -/
def tickStatsV2 (bins : List (Option StatsBin)) (nextRollover : Nat) :
    Option (List (Option StatsBin) × Nat) := do
  let b0opt ← bins[0]?
  match b0opt with
  | none => none
  | some b0 =>
      let b1 := { b0 with NumSeconds := b0.NumSeconds + 1 }
      let bins1 ← setChecked bins 0 (some b1)
      if b1.NumSeconds = nextRollover then do
        let shifted ← shiftLoop bins1 (bins1.length - 1)
        let finalBins ← setChecked shifted 0 (some newStatsBin)
        some (finalBins, 900)
      else some (bins1, nextRollover)

/-- The ring as `trackStats` allocates it: 97 slots, only slot 0 holds a
bin. -/
def initialBins : List (Option StatsBin) :=
  some newStatsBin :: List.replicate 96 none

set_option maxRecDepth 100000 in
/-- Claim C4 (code_bug): at a rollover tick, the first variant's shift
loop starts at index 97 and writes `fifteenMinuteBins[97]`, outside the
97-slot ring, so the tick panics; the second variant starts at index 96
and produces exactly the claimed shift: slot 0 fresh, the old live bin in
slot 1, slot 96 discarded, and nextRollover set to 900. -/
theorem stats_rollover_v1_out_of_range :
    tickStatsV1 initialBins 1 = none ∧
    tickStatsV2 initialBins 1 =
      some (some newStatsBin :: some { Stats := [], NumSeconds := 1 } ::
        List.replicate 95 none, 900) := by
  constructor
  · decide
  · decide

/-! ## Stats queries (src/snmp.go, `trackStats` request branch, `GetStat`,
`GetStatsBin`)

The request branch (both variants, src/snmp.go lines 228-241 and
797-810) sends `nil` on the response channel when `req.bin` is at or
beyond the ring length, but does not stop there: it then evaluates
`fifteenMinuteBins[req.bin]`, an out-of-range index that panics the
tracker goroutine.  The pair returned below is (replies sent on the
response channel, whether the tracker survived the request). -/

inductive StatQueryReply
  | nilReply
  | intReply (n : Nat)
  | binReply (b : StatsBin)
deriving DecidableEq, Repr

def handleStatRequest (bins : List (Option StatsBin)) (allStats : Bool)
    (singleStat : StatType) (bin : Nat) : List StatQueryReply × Bool :=
  let sent := if bins.length ≤ bin then [StatQueryReply.nilReply] else []
  match bins[bin]? with
  | none => (sent, false)
  | some none => (sent, false)
  | some (some statsBin) =>
      let reply :=
        if allStats then StatQueryReply.binReply statsBin.copy
        else StatQueryReply.intReply (lookupStat statsBin.Stats singleStat)
      (sent ++ [reply], true)

inductive GetStatResult
  | binUnavailable
  | internalError
  | value (n : Nat)
deriving DecidableEq, Repr

/-- src/snmp.go lines 834-847: `GetStat` reads one reply from the
response channel; `nil` becomes the bin-unavailable error, a non-int
reply the internal error.  The boolean reports whether the tracker
survived to serve further queries; a `none` first component means the
caller never receives a reply. -/
def GetStat (bins : List (Option StatsBin)) (statType : StatType) (bin : Nat) :
    Option GetStatResult × Bool :=
  let (replies, alive) := handleStatRequest bins false statType bin
  (replies.head?.map fun r =>
    match r with
    | .nilReply => GetStatResult.binUnavailable
    | .intReply n => GetStatResult.value n
    | .binReply _ => GetStatResult.internalError, alive)

inductive GetStatsBinResult
  | binUnavailable
  | internalError
  | snapshot (b : StatsBin)
deriving DecidableEq, Repr

/-- src/snmp.go lines 849-862: same protocol with `allStats` set. -/
def GetStatsBin (bins : List (Option StatsBin)) (bin : Nat) :
    Option GetStatsBinResult × Bool :=
  let (replies, alive) := handleStatRequest bins true StatType.REQUESTS_SENT bin
  (replies.head?.map fun r =>
    match r with
    | .nilReply => GetStatsBinResult.binUnavailable
    | .intReply _ => GetStatsBinResult.internalError
    | .binReply b => GetStatsBinResult.snapshot b, alive)

/-- Claim C5 (code_bug): a query for bin 97 does make `GetStat` (and
`GetStatsBin`) return the bin-unavailable error, but the tracker then
indexes slot 97 of the 97-slot ring and panics, so it does not remain
able to serve queries; a bin-0 query against a live tracker succeeds. -/
theorem getStat_bin97_kills_tracker :
    GetStat initialBins StatType.REQUESTS_SENT 97 = (some .binUnavailable, false) ∧
    GetStatsBin initialBins 97 = (some .binUnavailable, false) ∧
    GetStat initialBins StatType.REQUESTS_SENT 0 = (some (.value 0), true) := by
  refine ⟨by decide, by decide, by decide⟩

/-! ## Request tracker (src/snmp.go, `sendRequest` and `trackRequests`)

The tracker is a single-threaded loop over three inputs: new client
requests, responses, and timeout notifications.  A run is the sequence
of loop iterations.  `sendRequest` increments REQUESTS_SENT and hands
the request to the loop, so a client-request event carries both that
increment and the intake branch of the loop.  A request is represented
by its id and its remaining retries; `isRetryRequired` lives outside src
and is modelled from the spec (section 4.3 retry policy: a retry remains
while `retries_remaining` is positive, and each fire consumes one). -/

inductive TrackerEvent
  | clientRequest (retries : Nat)
  | response (rid : Nat)
  | timeout (rid : Nat)
deriving DecidableEq, Repr

structure TrackerState where
  nextRequestId : Nat
  outstanding : List (Nat × Nat)
  statLog : List StatType
  outboundQueue : List Nat
deriving DecidableEq, Repr

def lookupOutstanding (m : List (Nat × Nat)) (rid : Nat) : Option Nat :=
  (m.find? fun p => p.1 = rid).map fun p => p.2

def removeOutstanding (m : List (Nat × Nat)) (rid : Nat) : List (Nat × Nat) :=
  m.filter fun p => p.1 ≠ rid

def setRetries (m : List (Nat × Nat)) (rid : Nat) (r : Nat) : List (Nat × Nat) :=
  m.map fun p => if p.1 = rid then (p.1, r) else p

/-- One iteration of `trackRequests` (src/snmp.go lines 886-936), with
the stat increments written to a log. -/
def trackerStep (s : TrackerState) : TrackerEvent → TrackerState
  | .clientRequest retries =>
      let nid := s.nextRequestId + 1
      { nextRequestId := nid,
        outstanding := s.outstanding ++ [(nid, retries)],
        statLog := s.statLog ++
          [StatType.REQUESTS_SENT, StatType.REQUESTS_FORWARDED_TO_FLOW_CONTROL],
        outboundQueue := s.outboundQueue ++ [nid] }
  | .response rid =>
      match lookupOutstanding s.outstanding rid with
      | none =>
          { s with statLog := s.statLog ++ [StatType.RESPONSES_DROPPED_BY_REQUEST_TRACKER] }
      | some _ =>
          { s with outstanding := removeOutstanding s.outstanding rid,
                   statLog := s.statLog ++ [StatType.RESPONSES_RELEASED_TO_CLIENT] }
  | .timeout rid =>
      match lookupOutstanding s.outstanding rid with
      | none =>
          { s with statLog := s.statLog ++ [StatType.UNKNOWN_REQUESTS_TIMED_OUT] }
      | some r =>
          if 0 < r then
            { s with outstanding := setRetries s.outstanding rid (r - 1),
                     statLog := s.statLog ++
                       [StatType.REQUESTS_TIMED_OUT,
                        StatType.REQUESTS_FORWARDED_TO_FLOW_CONTROL],
                     outboundQueue := s.outboundQueue ++ [rid] }
          else
            { s with outstanding := removeOutstanding s.outstanding rid,
                     statLog := s.statLog ++ [StatType.REQUEST_RETRIES_EXHAUSTED] }

def trackerInit : TrackerState :=
  { nextRequestId := 0, outstanding := [], statLog := [], outboundQueue := [] }

def trackerRun (events : List TrackerEvent) : TrackerState :=
  events.foldl trackerStep trackerInit

/-- The C9 balance: forwards to flow control equal sends plus timeouts. -/
def statBalance (s : TrackerState) : Prop :=
  s.statLog.count StatType.REQUESTS_FORWARDED_TO_FLOW_CONTROL =
    s.statLog.count StatType.REQUESTS_SENT + s.statLog.count StatType.REQUESTS_TIMED_OUT

theorem trackerStep_preserves_balance (s : TrackerState) (e : TrackerEvent)
    (h : statBalance s) : statBalance (trackerStep s e) := by
  unfold statBalance at h ⊢
  cases e with
  | clientRequest retries =>
      simp [trackerStep, List.count_append, h]
      omega
  | response rid =>
      cases hl : lookupOutstanding s.outstanding rid <;>
        simp [trackerStep, hl, List.count_append, h]
  | timeout rid =>
      cases hl : lookupOutstanding s.outstanding rid with
      | none => simp [trackerStep, hl, List.count_append, h]
      | some r =>
          by_cases hr : 0 < r <;>
            simp [trackerStep, hl, hr, List.count_append, h] <;> omega

theorem trackerRun_balance_aux (events : List TrackerEvent) :
    ∀ s : TrackerState, statBalance s → statBalance (events.foldl trackerStep s) := by
  induction events with
  | nil => intro s h; exact h
  | cons e rest ih =>
      intro s h
      exact ih (trackerStep s e) (trackerStep_preserves_balance s e h)

/-- Claim C9 (confirmed): in any run of the tracker loop, the count of
REQUESTS_FORWARDED_TO_FLOW_CONTROL equals the count of REQUESTS_SENT
plus the count of REQUESTS_TIMED_OUT: each submission contributes one
send and one forward, and each retry one timeout and one forward. -/
theorem forwarded_eq_sent_plus_timedout (events : List TrackerEvent) :
    (trackerRun events).statLog.count StatType.REQUESTS_FORWARDED_TO_FLOW_CONTROL =
      (trackerRun events).statLog.count StatType.REQUESTS_SENT +
        (trackerRun events).statLog.count StatType.REQUESTS_TIMED_OUT :=
  trackerRun_balance_aux events trackerInit (by simp [statBalance, trackerInit])

/-! ## Supervisor monitor (src/snmp.go, `monitor`)

The monitor selects on the external shutdown channel, the two death
channels, and the restart timer.  The state records, per select branch,
what each branch mutates: whether each side is up (its death channel is
non-nil), whether the socket is open, how many receiver and transmitter
goroutines were ever spawned, and the `lastRestartAttempt` local, a
`time.Time` modelled as a Nat (0 is the Go zero time; the variable is
declared at the top of `monitor` and never assigned in either variant). -/

structure MonitorState where
  shuttingDown : Bool
  outboundUp : Bool
  inboundUp : Bool
  connOpen : Bool
  rxSpawns : Nat
  txSpawns : Nat
  lastRestartAttempt : Nat
deriving DecidableEq, Repr

inductive MonitorEvent
  | externalShutdown
  | outboundDeath
  | inboundDeath
  | timerFire
deriving DecidableEq, Repr

/-- The select branches of the first variant's `monitor` (src/snmp.go
lines 117-152): the restart-timer branch remakes the death channels,
calls `startReceiver` (which opens the UDP socket and spawns `listen`)
and spawns `processOutboundQueue`.  No branch assigns
`lastRestartAttempt`. -/
def monitorStepV1 (s : MonitorState) : MonitorEvent → MonitorState
  | .externalShutdown => { s with shuttingDown := true, connOpen := false }
  | .outboundDeath => { s with outboundUp := false }
  | .inboundDeath => { s with inboundUp := false }
  | .timerFire =>
      { s with inboundUp := true, connOpen := true, rxSpawns := s.rxSpawns + 1,
               outboundUp := true, txSpawns := s.txSpawns + 1 }

/-- The select branches of the second variant's `monitor` (src/snmp.go
lines 630-661): identical except that the restart-timer branch only
clears the timer variable; `startRxAndTx` (lines 663-668) is called from
`initContext` only.  No branch assigns `lastRestartAttempt` here either. -/
def monitorStepV2 (s : MonitorState) : MonitorEvent → MonitorState
  | .externalShutdown => { s with shuttingDown := true, connOpen := false }
  | .outboundDeath => { s with outboundUp := false }
  | .inboundDeath => { s with inboundUp := false }
  | .timerFire => s

/-- Both I/O sides dead, no shutdown pending, restart timer armed: the
RestartScheduled situation of the claim (one earlier receiver and
transmitter have died). -/
def restartScheduledState : MonitorState :=
  { shuttingDown := false, outboundUp := false, inboundUp := false, connOpen := false,
    rxSpawns := 1, txSpawns := 1, lastRestartAttempt := 0 }

/-- Claim C6 (code_bug): when the restart timer fires in
RestartScheduled with no shutdown pending, the second variant's monitor
changes nothing — no socket is opened, no receiver or transmitter is
spawned, the state does not return to Running; the first variant does
reopen the socket, spawn both sides and return to Running, but neither
variant ever records the last-restart time: `lastRestartAttempt` is
unchanged by every monitor step. -/
theorem monitor_timerFire_no_restart_recorded :
    monitorStepV2 restartScheduledState .timerFire = restartScheduledState ∧
    (monitorStepV1 restartScheduledState .timerFire).connOpen = true ∧
    (monitorStepV1 restartScheduledState .timerFire).rxSpawns = 2 ∧
    (monitorStepV1 restartScheduledState .timerFire).txSpawns = 2 ∧
    (monitorStepV1 restartScheduledState .timerFire).outboundUp = true ∧
    (monitorStepV1 restartScheduledState .timerFire).inboundUp = true ∧
    (∀ (s : MonitorState) (e : MonitorEvent),
      (monitorStepV1 s e).lastRestartAttempt = s.lastRestartAttempt ∧
      (monitorStepV2 s e).lastRestartAttempt = s.lastRestartAttempt) := by
  refine ⟨by decide, by decide, by decide, by decide, by decide, by decide, ?_⟩
  intro s e
  cases e <;> exact ⟨rfl, rfl⟩

/-! ## Shutdown protocol (src/snmp.go, `Shutdown` and `monitor`)

`Shutdown` runs `close(externalShutdownNotification); <-shutDownComplete`
under a `sync.Once`; the monitor answers the external close by setting
the channel to nil (so its branch runs once), closing the socket and
closing the internal broadcast channel, and closes `shutDownComplete`
once both death channels are nil while shutting down.  The protocol is a
transition system over counters: the `Once` semantics (only the first
caller runs the body, later callers block until it finishes) is the
documented behaviour of the Go standard library, modelled here.  Flags
are 0/1-valued Nats; `extClose`, `sockClose`, `internalClose` and
`completeClose` count executions of the respective close calls. -/

structure ShutdownState where
  onceStarted : Nat
  onceDone : Nat
  extClose : Nat
  monSaw : Nat
  sockClose : Nat
  internalClose : Nat
  completeClose : Nat
  outAlive : Nat
  inAlive : Nat
  monExited : Nat
  runnerWaiting : Nat
  blocked : Nat
  returned : Nat
deriving DecidableEq, Repr

inductive ShutdownEvent
  | callShutdown
  | monitorHandlesExternal
  | outboundExits
  | inboundExits
  | monitorSignalsComplete
  | firstCallerReturns
  | blockedCallerReturns
deriving DecidableEq, Repr

/-- One interleaving step.  Guards that do not hold leave the state
unchanged (the event is not enabled). -/
def shutdownStep (s : ShutdownState) : ShutdownEvent → ShutdownState
  | .callShutdown =>
      if s.onceStarted = 0 then
        { s with onceStarted := 1, extClose := s.extClose + 1, runnerWaiting := 1 }
      else if s.onceDone = 1 then { s with returned := s.returned + 1 }
      else { s with blocked := s.blocked + 1 }
  | .monitorHandlesExternal =>
      if 1 ≤ s.extClose ∧ s.monSaw = 0 ∧ s.monExited = 0 then
        { s with monSaw := 1, sockClose := s.sockClose + 1,
                 internalClose := s.internalClose + 1 }
      else s
  | .outboundExits => if s.outAlive = 1 then { s with outAlive := 0 } else s
  | .inboundExits => if s.inAlive = 1 then { s with inAlive := 0 } else s
  | .monitorSignalsComplete =>
      if s.monSaw = 1 ∧ s.outAlive = 0 ∧ s.inAlive = 0 ∧ s.monExited = 0 then
        { s with completeClose := s.completeClose + 1, monExited := 1 }
      else s
  | .firstCallerReturns =>
      if s.runnerWaiting = 1 ∧ 1 ≤ s.completeClose then
        { s with runnerWaiting := 0, onceDone := 1, returned := s.returned + 1 }
      else s
  | .blockedCallerReturns =>
      if 1 ≤ s.blocked ∧ s.onceDone = 1 then
        { s with blocked := s.blocked - 1, returned := s.returned + 1 }
      else s

/-- Both I/O sides running, nothing shut down yet. -/
def shutdownInit : ShutdownState :=
  { onceStarted := 0, onceDone := 0, extClose := 0, monSaw := 0, sockClose := 0,
    internalClose := 0, completeClose := 0, outAlive := 1, inAlive := 1,
    monExited := 0, runnerWaiting := 0, blocked := 0, returned := 0 }

def shutdownRun (events : List ShutdownEvent) : ShutdownState :=
  events.foldl shutdownStep shutdownInit

/-- Inductive invariant of the shutdown protocol. -/
def shutdownInv (s : ShutdownState) : Prop :=
  s.onceStarted ≤ 1 ∧ s.extClose = s.onceStarted ∧
  s.monSaw ≤ 1 ∧ s.monSaw ≤ s.extClose ∧
  s.sockClose = s.monSaw ∧ s.internalClose = s.monSaw ∧
  s.monExited ≤ s.monSaw ∧ s.completeClose = s.monExited ∧
  s.onceDone ≤ 1 ∧ (s.onceDone = 1 → s.completeClose = 1) ∧
  s.runnerWaiting ≤ 1 ∧ (s.runnerWaiting = 1 → s.onceStarted = 1) ∧
  (s.onceDone = 1 → s.onceStarted = 1) ∧
  (1 ≤ s.returned → s.completeClose = 1)

theorem shutdownStep_preserves_inv (s : ShutdownState) (e : ShutdownEvent)
    (h : shutdownInv s) : shutdownInv (shutdownStep s e) := by
  obtain ⟨h1, h2, h3, h4, h5, h6, h7, h8, h9, h10, h11, h12, h13, h14⟩ := h
  cases e <;> simp only [shutdownStep, shutdownInv] <;> split_ifs <;>
    (try simp) <;> omega

theorem shutdownRun_inv_aux (events : List ShutdownEvent) :
    ∀ s : ShutdownState, shutdownInv s → shutdownInv (events.foldl shutdownStep s) := by
  induction events with
  | nil => intro s h; exact h
  | cons e rest ih =>
      intro s h
      exact ih (shutdownStep s e) (shutdownStep_preserves_inv s e h)

theorem shutdownRun_inv (events : List ShutdownEvent) : shutdownInv (shutdownRun events) :=
  shutdownRun_inv_aux events shutdownInit (by simp [shutdownInv, shutdownInit])

/-- Claim C10 (confirmed): along every interleaving of Shutdown callers
with the monitor, the external-channel close, the socket close, the
internal broadcast close and the completion signal each execute at most
once; and whenever any caller of `Shutdown` has returned, each has
executed exactly once — so every caller returns only after completion
has been signalled. -/
theorem shutdown_idempotent (events : List ShutdownEvent) :
    (shutdownRun events).extClose ≤ 1 ∧
    (shutdownRun events).sockClose ≤ 1 ∧
    (shutdownRun events).internalClose ≤ 1 ∧
    (shutdownRun events).completeClose ≤ 1 ∧
    (1 ≤ (shutdownRun events).returned →
      (shutdownRun events).extClose = 1 ∧ (shutdownRun events).sockClose = 1 ∧
      (shutdownRun events).internalClose = 1 ∧ (shutdownRun events).completeClose = 1) := by
  have h := shutdownRun_inv events
  obtain ⟨h1, h2, h3, h4, h5, h6, h7, h8, h9, h10, h11, h12, h13, h14⟩ := h
  refine ⟨by omega, by omega, by omega, by omega, fun hr => ?_⟩
  have hc := h14 hr
  refine ⟨by omega, by omega, by omega, hc⟩

end GoSnmp
